import Mathlib

/-!
Verification of the NAT traversal core of the `pineapple` peer-to-peer messaging
application, against its Rust source (src/nat_traversal/*.rs, src/main.rs).

The Rust code is shallowly embedded: machine integers become `Nat` with explicit
`% 2 ^ w` where overflow matters, byte buffers become `List Nat`, fallible
functions return `Except String`, and the effectful pipeline of
`NatTraversal::connect` is embedded as a pure function over an environment of
phase outcomes.
-/

namespace Pineapple

/-- `u16::to_be_bytes`: the two big-endian bytes of a 16-bit value (the byte
weights 256^k are written as literals). -/
def u16ToBeBytes (n : Nat) : List Nat :=
  [n / 256 % 256, n % 256]

/-- `u16::from_be_bytes`: big-endian reconstruction of a 16-bit value from two bytes. -/
def u16FromBeBytes (l : List Nat) : Nat :=
  match l with
  | [b0, b1] => b0 * 256 + b1
  | _ => 0

/-- `u32::to_be_bytes`. -/
def u32ToBeBytes (n : Nat) : List Nat :=
  [n / 16777216 % 256, n / 65536 % 256, n / 256 % 256, n % 256]

/-- `u32::from_be_bytes`. -/
def u32FromBeBytes (l : List Nat) : Nat :=
  match l with
  | [b0, b1, b2, b3] => b0 * 16777216 + b1 * 65536 + b2 * 256 + b3
  | _ => 0

/-- `u64::to_be_bytes`. -/
def u64ToBeBytes (n : Nat) : List Nat :=
  [n / 72057594037927936 % 256, n / 281474976710656 % 256, n / 1099511627776 % 256,
   n / 4294967296 % 256, n / 16777216 % 256, n / 65536 % 256, n / 256 % 256, n % 256]

/-- `u64::from_be_bytes`. -/
def u64FromBeBytes (l : List Nat) : Nat :=
  match l with
  | [b0, b1, b2, b3, b4, b5, b6, b7] =>
      b0 * 72057594037927936 + b1 * 281474976710656 + b2 * 1099511627776 +
      b3 * 4294967296 + b4 * 16777216 + b5 * 65536 + b6 * 256 + b7
  | _ => 0

/-- `data[i]` on a byte slice whose bounds have already been checked; out-of-range
reads (which the Rust code never performs after its length guards) default to 0. -/
def nth (l : List Nat) (i : Nat) : Nat :=
  l.getD i 0

/-!
## Probe codec (src/nat_traversal/hole_punching.rs)

`ed25519_dalek::Signature` is 64 opaque bytes; `Signature::from_bytes` accepts any
64-byte array (validity is only checked at verification time), so the wire
signature is modelled as its byte list.
-/

/-- `ProbePacket` (hole_punching.rs 13-18). -/
structure ProbePacket where
  nonce : Nat
  tcp_port : Nat
  signature : List Nat
deriving Repr, DecidableEq

/-- Range and size constraints carried by the Rust types `u64`, `u16`, `[u8; 64]`. -/
def ProbePacket.WF (p : ProbePacket) : Prop :=
  p.nonce < 2 ^ 64 ∧ p.tcp_port < 2 ^ 16 ∧ p.signature.length = 64

/-- The 4-byte magic marker `b"PNPL"`. -/
def probeMagic : List Nat :=
  [0x50, 0x4E, 0x50, 0x4C]

/-- `ProbePacket::to_bytes` (hole_punching.rs 44-60): magic, nonce (BE), tcp_port
(BE), signature, concatenated in that order. -/
def ProbePacket.to_bytes (p : ProbePacket) : List Nat :=
  probeMagic ++ u64ToBeBytes p.nonce ++ u16ToBeBytes p.tcp_port ++ p.signature

/-- `ProbePacket::from_bytes` (hole_punching.rs 63-90). The `try_into` conversions
cannot fail once the length is known to be 78, and `Signature::from_bytes` is
infallible, so after the length and magic checks parsing always succeeds. -/
def ProbePacket.from_bytes (data : List Nat) : Except String ProbePacket :=
  if data.length ≠ 78 then
    .error ("Invalid probe packet length: " ++ toString data.length)
  else if data.take 4 ≠ probeMagic then
    .error "Invalid probe packet magic"
  else
    .ok { nonce := u64FromBeBytes ((data.drop 4).take 8)
        , tcp_port := u16FromBeBytes ((data.drop 12).take 2)
        , signature := (data.drop 14).take 64 }

/-!
## STUN client (src/nat_traversal/stun.rs)
-/

/-- `std::net::IpAddr`, kept as raw address bytes (4 for V4, 16 for V6), which is
how the Rust code constructs it (`IpAddr::from(<byte array>)`). -/
inductive IpAddr where
  | v4 (bytes : List Nat)
  | v6 (bytes : List Nat)
deriving Repr, DecidableEq

/-- `StunResponse` (stun.rs 23-27). -/
structure StunResponse where
  external_ip : IpAddr
  external_port : Nat
deriving Repr, DecidableEq

/-- `STUN_MAGIC_COOKIE` (stun.rs 16). -/
def stunMagicCookie : Nat := 0x2112A442

/-- `StunClient::parse_xor_mapped_address` (stun.rs 148-195). The port is XORed
with the high 16 bits of the magic cookie, an IPv4 address with the cookie, an
IPv6 address bytewise with cookie-bytes followed by the transaction id. -/
def parse_xor_mapped_address (data txid : List Nat) : Except String StunResponse :=
  if data.length < 8 then .error "XOR-MAPPED-ADDRESS too short"
  else
    let family := nth data 1
    let xorPort := u16FromBeBytes [nth data 2, nth data 3]
    let port := xorPort ^^^ (stunMagicCookie >>> 16 % 2 ^ 16)
    if family = 1 then
      if data.length < 8 then .error "Invalid IPv4 address length"
      else
        let xorAddr := u32FromBeBytes [nth data 4, nth data 5, nth data 6, nth data 7]
        let addr := xorAddr ^^^ stunMagicCookie
        .ok ⟨IpAddr.v4 (u32ToBeBytes addr), port⟩
    else if family = 2 then
      if data.length < 20 then .error "Invalid IPv6 address length"
      else
        let addrBytes := (data.drop 4).take 16
        let xorKey := u32ToBeBytes stunMagicCookie ++ txid
        .ok ⟨IpAddr.v6 (List.zipWith (fun a b => a ^^^ b) addrBytes xorKey), port⟩
    else .error ("Unknown address family: " ++ toString family)

/-- `StunClient::parse_mapped_address` (stun.rs 198-232): like the XOR variant but
without any XOR decoding. -/
def parse_mapped_address (data : List Nat) : Except String StunResponse :=
  if data.length < 8 then .error "MAPPED-ADDRESS too short"
  else
    let family := nth data 1
    let port := u16FromBeBytes [nth data 2, nth data 3]
    if family = 1 then
      if data.length < 8 then .error "Invalid IPv4 address length"
      else .ok ⟨IpAddr.v4 [nth data 4, nth data 5, nth data 6, nth data 7], port⟩
    else if family = 2 then
      if data.length < 20 then .error "Invalid IPv6 address length"
      else .ok ⟨IpAddr.v6 ((data.drop 4).take 16), port⟩
    else .error ("Unknown address family: " ++ toString family)

/-- The attribute `while` loop of `parse_binding_response` (stun.rs 118-142).
`stop` is `20 + msg_len`; both `break`s and normal loop exit produce the same
final error of the Rust function. The `fuel` argument only totalises the loop:
each iteration advances `offset` by at least 4, so `data.length + 1` units
(what `parse_binding_response` passes) always outlast the loop. -/
def stun_attr_loop (data txid : List Nat) (stop : Nat) : Nat → Nat → Except String StunResponse
  | 0, _ => .error "No address attribute found in STUN response"
  | fuel + 1, offset =>
    if offset < stop then
      if offset + 4 > data.length then .error "No address attribute found in STUN response"
      else
        let attrType := u16FromBeBytes [nth data offset, nth data (offset + 1)]
        let attrLen := u16FromBeBytes [nth data (offset + 2), nth data (offset + 3)]
        if offset + 4 + attrLen > data.length then
          .error "No address attribute found in STUN response"
        else
          let attrData := (data.drop (offset + 4)).take attrLen
          if attrType = 0x0020 then parse_xor_mapped_address attrData txid
          else if attrType = 0x0001 then parse_mapped_address attrData
          else stun_attr_loop data txid stop fuel (offset + 4 + (attrLen + 3) / 4 * 4)
    else .error "No address attribute found in STUN response"

/-- `StunClient::parse_binding_response` (stun.rs 89-145). -/
def parse_binding_response (data txid : List Nat) : Except String StunResponse :=
  if data.length < 20 then .error "STUN response too short"
  else
    let msgType := u16FromBeBytes [nth data 0, nth data 1]
    if msgType ≠ 0x0101 then .error "Invalid STUN response type"
    else
      let magic := u32FromBeBytes [nth data 4, nth data 5, nth data 6, nth data 7]
      if magic ≠ stunMagicCookie then .error "Invalid magic cookie"
      else if (data.drop 8).take 12 ≠ txid then .error "Transaction ID mismatch"
      else
        let msgLen := u16FromBeBytes [nth data 2, nth data 3]
        if data.length < 20 + msgLen then .error "STUN response truncated"
        else stun_attr_loop data txid (20 + msgLen) (data.length + 1) 20

/-- A syntactically valid binding response: type 0x0101, length of the attribute
bytes, the magic cookie, the transaction id, then the attribute bytes. -/
def mkBindingResponse (txid attrs : List Nat) : List Nat :=
  [0x01, 0x01] ++ u16ToBeBytes attrs.length ++ [0x21, 0x12, 0xA4, 0x42] ++ txid ++ attrs

/-- TLV encoding of one attribute (16-bit type, 16-bit length, value). -/
def mkAttrTLV (ty : Nat) (value : List Nat) : List Nat :=
  u16ToBeBytes ty ++ u16ToBeBytes value.length ++ value

/-- The value of an IPv4 XOR-MAPPED-ADDRESS attribute whose decoded address is
`[a0, a1, a2, a3]` and decoded port is `port`: family 0x01, port XOR high-cookie,
address XOR cookie. -/
def mkXorV4Value (a0 a1 a2 a3 port : Nat) : List Nat :=
  [0, 1] ++ u16ToBeBytes (port ^^^ 0x2112) ++
    u32ToBeBytes (u32FromBeBytes [a0, a1, a2, a3] ^^^ stunMagicCookie)

/-- The value of an IPv4 MAPPED-ADDRESS attribute with address `[a0, a1, a2, a3]`
and port `port` in the clear. -/
def mkMappedV4Value (a0 a1 a2 a3 port : Nat) : List Nat :=
  [0, 1] ++ u16ToBeBytes port ++ [a0, a1, a2, a3]

/-!
## Signalling client (src/nat_traversal/signalling.rs)
-/

/-- `SignallingMessage` (signalling.rs 19-54), a serde internally tagged union with
discriminator field `type` and snake_case variant tags. -/
inductive SignallingMessage where
  | register (fingerprint : String)
  | registerAck (success : Bool) (message : String)
  | offer (targetFingerprint externalIp : String) (externalPort : Nat)
      (localIp : String) (localPort : Nat) (nonce : Nat) (fingerprint : String)
  | forwardOffer (fromFingerprint externalIp : String) (externalPort : Nat)
      (localIp : String) (localPort : Nat) (nonce : Nat)
  | offerResponse (success : Bool) (message : Option String)
  | keepalive
  | error (message : String)
deriving Repr, DecidableEq

/-- A JSON text payload abstracted to the outcome of serde_json deserialisation of
the internally tagged `SignallingMessage`: either the `type` tag matches a known
variant and all fields decode (`decodable`), or the tag is none of the seven known
tags (`unknownType`, which serde_json rejects with an "unknown variant" error), or
the tag is known but a field is missing or ill-typed (`fieldError`). -/
inductive TextPayload where
  | decodable (msg : SignallingMessage)
  | unknownType (tag : String)
  | fieldError (description : String)
deriving Repr, DecidableEq

/-- `serde_json::from_str::<SignallingMessage>` on a text payload: an unknown
`type` tag is a deserialisation error, not a skipped message. -/
def decodeSignallingText : TextPayload → Except String SignallingMessage
  | .decodable m => .ok m
  | .unknownType tag => .error ("Failed to decode signalling message: unknown variant " ++ tag)
  | .fieldError d => .error ("Failed to decode signalling message: " ++ d)

/-- A WebSocket frame as matched by `receive_message` (signalling.rs 277-291). -/
inductive WsFrame where
  | text (payload : TextPayload)
  | binary (data : List Nat)
  | ping (data : List Nat)
  | pong (data : List Nat)
  | close
deriving Repr, DecidableEq

/-- `SignallingClient::receive_message` (signalling.rs 270-293) over the incoming
frame stream: text frames are decoded — a decode failure is returned as an error
through the `?` operator — pings are answered (the outgoing pong is elided here),
pongs and binary frames are skipped, a close frame is an error. Returns the
decoded message together with the unconsumed rest of the stream. -/
def receive_message : List WsFrame → Except String (SignallingMessage × List WsFrame)
  | [] => .error "Connection closed"
  | WsFrame.text payload :: rest =>
      match decodeSignallingText payload with
      | .ok m => .ok (m, rest)
      | .error e => .error e
  | WsFrame.ping _ :: rest => receive_message rest
  | WsFrame.pong _ :: rest => receive_message rest
  | WsFrame.binary _ :: rest => receive_message rest
  | WsFrame.close :: _ => .error "Server closed WebSocket"

/-!
## UDP hole puncher receive loop (src/nat_traversal/hole_punching.rs 139-181)
-/

/-- A socket address (ip rendered as text, port). -/
structure SockAddr where
  ip : String
  port : Nat
deriving Repr, DecidableEq

/-- One outcome of `self.socket.recv_from` inside the punch loop. -/
inductive RecvEvent where
  | datagram (source : SockAddr) (payload : List Nat)
  | wouldBlock
  | socketError (msg : String)
deriving Repr, DecidableEq

/-- The receive half of `UdpHolePuncher::punch_hole` (hole_punching.rs 153-180)
over the sequence of socket events: the first datagram whose payload parses as a
`ProbePacket` ends the loop with `Ok(peer_probe.tcp_port)`; parse failures,
`WouldBlock` and other socket errors just continue the loop. The sender address is
only printed, never compared against the candidate list, and the probe signature
is never verified (`None` models the timeout that ends an exhausted stream). -/
def punch_hole_recv : List RecvEvent → Option Nat
  | [] => none
  | RecvEvent.datagram _ payload :: rest =>
      match ProbePacket.from_bytes payload with
      | .ok peerProbe => some peerProbe.tcp_port
      | .error _ => punch_hole_recv rest
  | RecvEvent.wouldBlock :: rest => punch_hole_recv rest
  | RecvEvent.socketError _ :: rest => punch_hole_recv rest

/-- Specification reading of the same loop: the tcp_port of the first event that
is a datagram parsing as a probe. -/
def firstParsedPort (events : List RecvEvent) : Option Nat :=
  (events.filterMap fun ev =>
    match ev with
    | RecvEvent.datagram _ payload =>
        match ProbePacket.from_bytes payload with
        | .ok peerProbe => some peerProbe.tcp_port
        | .error _ => none
    | _ => none).head?

/-- Rewrites the source address of a datagram event, leaving payloads untouched. -/
def mapSource (f : SockAddr → SockAddr) : RecvEvent → RecvEvent
  | .datagram a payload => .datagram (f a) payload
  | e => e

/-!
## Orchestrator (src/nat_traversal/mod.rs)
-/

/-- `ConnectionState` (types.rs 40-51). -/
inductive ConnectionState where
  | Idle
  | ConnectingSignalling
  | Registering
  | StunDiscovery
  | SendingOffer
  | WaitingForOffer
  | UdpHolePunching
  | TcpConnecting
  | Connected
  | Failed (reason : String)
deriving Repr, DecidableEq

/-- True exactly on the `Failed` variant. -/
def ConnectionState.isFailed : ConnectionState → Bool
  | .Failed _ => true
  | _ => false

/-- `anyhow::Context::context` wrapping, as rendered by the alternate `Display` of
the resulting error chain. -/
def wrapContext (ctx e : String) : String :=
  ctx ++ ": " ++ e

/-- Environment of outcomes for the effectful steps of `NatTraversal::connect`:
each field is what the corresponding await/call would produce. `ephemeralTcpPort`
is the port the OS hands `UdpHolePuncher::get_local_tcp_port` for its throwaway
`0.0.0.0:0` TCP listener; `punchHole` carries the peer's advertised TCP port on
success. -/
structure ConnectEnv where
  signallingConnect : Except String Unit
  register : Except String Unit
  stunNew : Except String Unit
  stunQuery : Except String Unit
  sendOffer : Except String Unit
  holePuncherNew : Except String Unit
  ephemeralTcpPort : Nat
  punchHole : Except String Nat
  tcpOpen : Except String Unit
  closeSignalling : Except String Unit

/-- Observable trace of one `connect` run: every assignment to `self.state` in
order, the local TCP port embedded in outgoing probes by C4 (when that phase
runs), the `local_port` argument handed to `tcp_simultaneous_open` — which is what
it binds (tcp_connect.rs 62-75) — and the overall result. -/
structure ConnectTrace where
  states : List ConnectionState
  probeTcpPort : Option Nat
  c5BindPort : Option Nat
  outcome : Except String Unit
deriving Repr

/-- `NatTraversal::connect` (mod.rs 46-118). `tcpPortCfg` is `config.tcp_port`.
Each phase sets `self.state` before awaiting its operation; a failure propagates
through `?` after `.context(...)` wrapping — `StunClient::new` (mod.rs 62) and
`UdpHolePuncher::new` (mod.rs 88-91) propagate without any added context — and
`self.state` is left untouched by the propagation. On the success path
`signalling.close()` runs after `self.state = Connected` (mod.rs 113-114). -/
def natConnect (tcpPortCfg : Nat) (env : ConnectEnv) : ConnectTrace :=
  let s1 := [ConnectionState.ConnectingSignalling]
  match env.signallingConnect with
  | .error e => ⟨s1, none, none, .error (wrapContext "Failed to connect to signalling server" e)⟩
  | .ok _ =>
  let s2 := s1 ++ [ConnectionState.Registering]
  match env.register with
  | .error e => ⟨s2, none, none, .error (wrapContext "Failed to register with signalling server" e)⟩
  | .ok _ =>
  let s3 := s2 ++ [ConnectionState.StunDiscovery]
  match env.stunNew with
  | .error e => ⟨s3, none, none, .error e⟩
  | .ok _ =>
  match env.stunQuery with
  | .error e => ⟨s3, none, none, .error (wrapContext "STUN query failed" e)⟩
  | .ok _ =>
  let s4 := s3 ++ [ConnectionState.SendingOffer]
  match env.sendOffer with
  | .error e => ⟨s4, none, none, .error (wrapContext "Failed to send offer" e)⟩
  | .ok _ =>
  let s5 := s4 ++ [ConnectionState.UdpHolePunching]
  match env.holePuncherNew with
  | .error e => ⟨s5, none, none, .error e⟩
  | .ok _ =>
  let probePort := env.ephemeralTcpPort
  match env.punchHole with
  | .error e => ⟨s5, some probePort, none, .error (wrapContext "UDP hole punching failed" e)⟩
  | .ok _peerTcpPort =>
  let s6 := s5 ++ [ConnectionState.TcpConnecting]
  let localTcpPort := tcpPortCfg
  match env.tcpOpen with
  | .error e =>
      ⟨s6, some probePort, some localTcpPort, .error (wrapContext "TCP simultaneous open failed" e)⟩
  | .ok _ =>
  let s7 := s6 ++ [ConnectionState.Connected]
  match env.closeSignalling with
  | .error e => ⟨s7, some probePort, some localTcpPort, .error e⟩
  | .ok _ => ⟨s7, some probePort, some localTcpPort, .ok ()⟩

/-- The value of `self.state` after `connect` returns (`Idle` from `new` if no
assignment happened). -/
def finalState (t : ConnectTrace) : ConnectionState :=
  t.states.getLastD ConnectionState.Idle

/-- An environment in which the peer's probe never arrives: `punch_hole` fails
with its timeout error and every earlier phase succeeds. -/
def envHolePunchTimeout : ConnectEnv :=
  ⟨.ok (), .ok (), .ok (), .ok (), .ok (), .ok (), 50000,
    .error "UDP hole punching timeout", .ok (), .ok ()⟩

/-- A fully successful environment in which the OS assigned C4's throwaway TCP
listener port 54321 and the peer advertised TCP port 6000. -/
def envAllOk : ConnectEnv :=
  ⟨.ok (), .ok (), .ok (), .ok (), .ok (), .ok (), 54321, .ok 6000, .ok (), .ok ()⟩

/-- An environment in which `tcp_simultaneous_open` times out. -/
def envTcpOpenFail : ConnectEnv :=
  ⟨.ok (), .ok (), .ok (), .ok (), .ok (), .ok (), 54321, .ok 6000,
    .error "TCP simultaneous open timeout", .ok ()⟩

/-!
## Self-connect refusal (src/main.rs 152-156)
-/

/-- How a refused configuration can manifest: an error value returned by the
pipeline (named by its variant and field), or termination of the process. -/
inductive RefusalBehaviour where
  | errorReturn (variant field : String)
  | processExit (code : Nat)
deriving Repr, DecidableEq

/-- The self-connect guard of `run_nat_traversal` (main.rs 152-156): when the
local fingerprint equals the target's, print an error and `std::process::exit(1)`;
otherwise fall through and run the pipeline (`NatTraversal::connect` itself
performs no such check). -/
def run_nat_traversal_guard (localFingerprint peerFingerprint : String) :
    Option RefusalBehaviour :=
  if localFingerprint == peerFingerprint then some (RefusalBehaviour.processExit 1)
  else none

/-- The refusal described by the spec's words: "`local_fingerprint ==
target_fingerprint` → `InvalidConfiguration(\"fingerprint\")`" — an error return,
not a process exit. Stated for comparison with `run_nat_traversal_guard`. -/
def specSelfConnectRefusal (localFingerprint peerFingerprint : String) :
    Option RefusalBehaviour :=
  if localFingerprint == peerFingerprint then
    some (RefusalBehaviour.errorReturn "InvalidConfiguration" "fingerprint")
  else none

end Pineapple

namespace Pineapple

theorem u16_from_to (n : Nat) : u16FromBeBytes (u16ToBeBytes n) = n % 2 ^ 16 := by
  simp only [u16ToBeBytes, u16FromBeBytes]
  omega

theorem u32_from_to (n : Nat) : u32FromBeBytes (u32ToBeBytes n) = n % 2 ^ 32 := by
  simp only [u32ToBeBytes, u32FromBeBytes]
  omega

theorem u64_from_to (n : Nat) : u64FromBeBytes (u64ToBeBytes n) = n % 2 ^ 64 := by
  simp only [u64ToBeBytes, u64FromBeBytes]
  omega

theorem u16_to_from (a b : Nat) (ha : a < 256) (hb : b < 256) :
    u16ToBeBytes (u16FromBeBytes [a, b]) = [a, b] := by
  simp only [u16ToBeBytes, u16FromBeBytes, List.cons.injEq, and_true]
  omega

theorem u32_to_from (a b c d : Nat) (ha : a < 256) (hb : b < 256) (hc : c < 256)
    (hd : d < 256) :
    u32ToBeBytes (u32FromBeBytes [a, b, c, d]) = [a, b, c, d] := by
  simp only [u32ToBeBytes, u32FromBeBytes, List.cons.injEq, and_true]
  omega

theorem probe_to_bytes_length (p : ProbePacket) (h : p.signature.length = 64) :
    p.to_bytes.length = 78 := by
  simp [ProbePacket.to_bytes, probeMagic, u64ToBeBytes, u16ToBeBytes, h]

theorem probe_from_to (p : ProbePacket) (h : p.WF) :
    ProbePacket.from_bytes p.to_bytes = .ok p := by
  obtain ⟨h1, h2, h3⟩ := h
  have hlen : p.to_bytes.length = 78 := probe_to_bytes_length p h3
  unfold ProbePacket.from_bytes
  rw [if_neg (by omega)]
  have hmagic : p.to_bytes.take 4 = probeMagic := by
    simp [ProbePacket.to_bytes, probeMagic, u64ToBeBytes, u16ToBeBytes, List.take]
  rw [if_neg (by simp [hmagic])]
  have hnonce : (p.to_bytes.drop 4).take 8 = u64ToBeBytes p.nonce := by
    simp [ProbePacket.to_bytes, probeMagic, u64ToBeBytes, u16ToBeBytes, List.drop, List.take]
  have hport : (p.to_bytes.drop 12).take 2 = u16ToBeBytes p.tcp_port := by
    simp [ProbePacket.to_bytes, probeMagic, u64ToBeBytes, u16ToBeBytes, List.drop, List.take]
  have hsig : (p.to_bytes.drop 14).take 64 = p.signature := by
    simp only [ProbePacket.to_bytes, probeMagic, u64ToBeBytes, u16ToBeBytes]
    simp [List.drop, List.take_of_length_le, Nat.le_of_eq h3]
  rw [hnonce, hport, hsig, u64_from_to, u16_from_to, Nat.mod_eq_of_lt h1, Nat.mod_eq_of_lt h2]

/-- C3: for every (well-formed) `ProbePacket` `p`, `from_bytes (to_bytes p) = Ok p`,
and `to_bytes` produces exactly 78 bytes laid out as magic, nonce (BE), tcp_port
(BE), signature. -/
theorem probe_roundtrip (p : ProbePacket) (h : p.WF) :
    ProbePacket.from_bytes p.to_bytes = .ok p ∧
    p.to_bytes.length = 78 ∧
    p.to_bytes = probeMagic ++ u64ToBeBytes p.nonce ++ u16ToBeBytes p.tcp_port ++ p.signature := by
  exact ⟨probe_from_to p h, probe_to_bytes_length p h.2.2, rfl⟩

/-- Concrete instantiation of `probe_roundtrip` at nonce 1, port 2, all-zero signature. -/
theorem probe_roundtrip_witness :
    (ProbePacket.mk 1 2 (List.replicate 64 0)).WF ∧
    (ProbePacket.from_bytes (ProbePacket.mk 1 2 (List.replicate 64 0)).to_bytes =
      .ok (ProbePacket.mk 1 2 (List.replicate 64 0)) ∧
    (ProbePacket.mk 1 2 (List.replicate 64 0)).to_bytes.length = 78 ∧
    (ProbePacket.mk 1 2 (List.replicate 64 0)).to_bytes =
      probeMagic ++ u64ToBeBytes 1 ++ u16ToBeBytes 2 ++ List.replicate 64 0) :=
  ⟨by constructor <;> simp [ProbePacket.WF], probe_roundtrip _ (by constructor <;> simp [ProbePacket.WF])⟩

/-- C4: `from_bytes` is total (it is a Lean function on all of `List Nat`, mirroring
the panic-free Rust code whose slice indexing is guarded by the length check) and
fails exactly on wrong length or wrong magic; in particular inputs of length 77
and 79 yield errors. -/
theorem probe_from_bytes_error_characterisation (data : List Nat) :
    ((∃ e, ProbePacket.from_bytes data = .error e) ↔
      (data.length ≠ 78 ∨ data.take 4 ≠ probeMagic)) ∧
    (∃ e, ProbePacket.from_bytes (List.replicate 77 0) = .error e) ∧
    (∃ e, ProbePacket.from_bytes (List.replicate 79 0) = .error e) := by
  refine ⟨?_, ?_, ?_⟩
  · unfold ProbePacket.from_bytes
    split
    · simp_all
    · split
      · simp_all
      · simp_all
  · exact ⟨_, rfl⟩
  · exact ⟨_, rfl⟩

/-- C8 counterexample: at the self-connect input ("alice", "alice") the code
refuses by exiting the process with status 1; it does not fail with the
`InvalidConfiguration("fingerprint")` error-return the claim describes (no such
error variant exists anywhere in the code). -/
theorem self_connect_counterexample :
    run_nat_traversal_guard "alice" "alice" = some (RefusalBehaviour.processExit 1) ∧
    run_nat_traversal_guard "alice" "alice" ≠ specSelfConnectRefusal "alice" "alice" := by
  decide

/-- C8 (amended): equal local and target fingerprints are refused — by printing an
error and exiting the process with status 1, not by an `InvalidConfiguration`
error return — and exactly the configurations with differing fingerprints fall
through the guard into the pipeline. -/
theorem self_connect_guard_amended (l p : String) :
    (run_nat_traversal_guard l p = none ↔ l ≠ p) ∧
    (l = p → run_nat_traversal_guard l p = some (RefusalBehaviour.processExit 1)) := by
  constructor
  · constructor
    · intro hnone heq
      subst heq
      simp [run_nat_traversal_guard] at hnone
    · intro hne
      simp [run_nat_traversal_guard, hne]
  · intro heq
    subst heq
    simp [run_nat_traversal_guard]

/-- Concrete instantiation of `self_connect_guard_amended`. -/
theorem self_connect_guard_amended_witness :
    run_nat_traversal_guard "bob" "bob" = some (RefusalBehaviour.processExit 1) ∧
    run_nat_traversal_guard "alice" "bob" = none :=
  ⟨(self_connect_guard_amended "bob" "bob").2 rfl,
   (self_connect_guard_amended "alice" "bob").1.mpr (by decide)⟩

/-- C6 counterexample: a text frame whose `type` value "hello_v2" is unknown makes
`receive_message` return a decode error; the receive loop does not continue to the
following well-formed keepalive frame, so the unknown message is fatal, not
skipped. -/
theorem unknown_type_counterexample :
    receive_message
        [WsFrame.text (TextPayload.unknownType "hello_v2"),
         WsFrame.text (TextPayload.decodable SignallingMessage.keepalive)] =
      .error "Failed to decode signalling message: unknown variant hello_v2" ∧
    receive_message
        [WsFrame.text (TextPayload.unknownType "hello_v2"),
         WsFrame.text (TextPayload.decodable SignallingMessage.keepalive)] ≠
      .ok (SignallingMessage.keepalive,
        ([] : List WsFrame)) := by
  refine ⟨rfl, by simp [receive_message, decodeSignallingText]⟩

/-- C6 (amended): a text frame whose `type` discriminator is unknown causes
`receive_message` to fail with the serde decode error — it is not skipped — while
binary, ping and pong frames are skipped (the loop continues on the rest of the
stream) and a decodable text frame is returned. -/
theorem receive_message_unknown_type_amended (tag : String) (rest : List WsFrame)
    (d : List Nat) :
    receive_message (WsFrame.text (TextPayload.unknownType tag) :: rest) =
      .error ("Failed to decode signalling message: unknown variant " ++ tag) ∧
    receive_message (WsFrame.binary d :: rest) = receive_message rest ∧
    receive_message (WsFrame.ping d :: rest) = receive_message rest ∧
    receive_message (WsFrame.pong d :: rest) = receive_message rest ∧
    (∀ m, receive_message (WsFrame.text (TextPayload.decodable m) :: rest) = .ok (m, rest)) :=
  ⟨rfl, rfl, rfl, rfl, fun _ => rfl⟩

theorem punch_hole_recv_eq_firstParsedPort (events : List RecvEvent) :
    punch_hole_recv events = firstParsedPort events := by
  induction events with
  | nil => rfl
  | cons ev rest ih =>
      cases ev with
      | datagram a payload =>
          cases h : ProbePacket.from_bytes payload with
          | ok q => simp [punch_hole_recv, firstParsedPort, h]
          | error e =>
              simp only [punch_hole_recv, firstParsedPort, List.filterMap_cons, h]
              exact ih
      | wouldBlock => exact ih
      | socketError e => exact ih

theorem punch_hole_recv_source_independent (f : SockAddr → SockAddr)
    (events : List RecvEvent) :
    punch_hole_recv (events.map (mapSource f)) = punch_hole_recv events := by
  induction events with
  | nil => rfl
  | cons ev rest ih =>
      cases ev with
      | datagram a payload =>
          cases h : ProbePacket.from_bytes payload <;>
            simp [mapSource, punch_hole_recv, h, ih]
      | wouldBlock => simpa [mapSource, punch_hole_recv] using ih
      | socketError e => simpa [mapSource, punch_hole_recv] using ih

/-- C9: the punch loop returns the tcp_port of the first received datagram whose
payload parses as a `ProbePacket`; the result is invariant under rewriting every
datagram's source address (the sender is never checked), and any well-formed probe
bytes — whatever their 64 signature bytes — are accepted without verification. -/
theorem punch_hole_first_probe (events : List RecvEvent) (f : SockAddr → SockAddr)
    (a : SockAddr) (p : ProbePacket) (rest : List RecvEvent) :
    punch_hole_recv events = firstParsedPort events ∧
    punch_hole_recv (events.map (mapSource f)) = punch_hole_recv events ∧
    (p.WF → punch_hole_recv (RecvEvent.datagram a p.to_bytes :: rest) = some p.tcp_port) := by
  refine ⟨punch_hole_recv_eq_firstParsedPort events,
    punch_hole_recv_source_independent f events, ?_⟩
  intro hwf
  simp [punch_hole_recv, probe_from_to p hwf]

/-- Concrete instantiation of `punch_hole_first_probe`: a probe with signature
bytes all 7 (no key signs anything) sent from an arbitrary address is accepted. -/
theorem punch_hole_first_probe_witness :
    (ProbePacket.mk 5 4242 (List.replicate 64 7)).WF ∧
    punch_hole_recv
        [RecvEvent.datagram (SockAddr.mk "203.0.113.9" 9)
          (ProbePacket.mk 5 4242 (List.replicate 64 7)).to_bytes] =
      some 4242 :=
  ⟨by constructor <;> simp [ProbePacket.WF],
   (punch_hole_first_probe [] id (SockAddr.mk "203.0.113.9" 9)
      (ProbePacket.mk 5 4242 (List.replicate 64 7)) []).2.2
    (by constructor <;> simp [ProbePacket.WF])⟩

theorem natConnect_shape (cfg : Nat) (env : ConnectEnv) :
    (natConnect cfg env).states ∈
      ([[ConnectionState.ConnectingSignalling],
        [ConnectionState.ConnectingSignalling, ConnectionState.Registering],
        [ConnectionState.ConnectingSignalling, ConnectionState.Registering,
         ConnectionState.StunDiscovery],
        [ConnectionState.ConnectingSignalling, ConnectionState.Registering,
         ConnectionState.StunDiscovery, ConnectionState.SendingOffer],
        [ConnectionState.ConnectingSignalling, ConnectionState.Registering,
         ConnectionState.StunDiscovery, ConnectionState.SendingOffer,
         ConnectionState.UdpHolePunching],
        [ConnectionState.ConnectingSignalling, ConnectionState.Registering,
         ConnectionState.StunDiscovery, ConnectionState.SendingOffer,
         ConnectionState.UdpHolePunching, ConnectionState.TcpConnecting],
        [ConnectionState.ConnectingSignalling, ConnectionState.Registering,
         ConnectionState.StunDiscovery, ConnectionState.SendingOffer,
         ConnectionState.UdpHolePunching, ConnectionState.TcpConnecting,
         ConnectionState.Connected]] : List (List ConnectionState)) ∧
    ((natConnect cfg env).c5BindPort = none ∨ (natConnect cfg env).c5BindPort = some cfg) ∧
    ((natConnect cfg env).probeTcpPort = none ∨
      (natConnect cfg env).probeTcpPort = some env.ephemeralTcpPort) := by
  obtain ⟨sc, rg, sn, sq, so, hn, ep, ph, tp, cs⟩ := env
  cases sc with
  | error e => simp [natConnect]
  | ok u =>
    cases rg with
    | error e => simp [natConnect]
    | ok u =>
      cases sn with
      | error e => simp [natConnect]
      | ok u =>
        cases sq with
        | error e => simp [natConnect]
        | ok u =>
          cases so with
          | error e => simp [natConnect]
          | ok u =>
            cases hn with
            | error e => simp [natConnect]
            | ok u =>
              cases ph with
              | error e => simp [natConnect]
              | ok port =>
                cases tp with
                | error e => simp [natConnect]
                | ok u =>
                  cases cs with
                  | error e => simp [natConnect]
                  | ok u => simp [natConnect]

/-- C10: the orchestrator starts in `Idle` and no execution of `connect` — over
any outcome environment — ever assigns `WaitingForOffer` to the state variable. -/
theorem waiting_for_offer_unreachable (cfg : Nat) (env : ConnectEnv) :
    ConnectionState.WaitingForOffer ∉
      ConnectionState.Idle :: (natConnect cfg env).states := by
  have h := (natConnect_shape cfg env).1
  simp only [List.mem_cons, List.mem_singleton, List.not_mem_nil, or_false] at h
  rcases h with h | h | h | h | h | h | h <;> simp [h]

/-- C1 counterexample: after a hole-punch timeout `connect` returns the error
wrapped with the phase name, but the orchestrator's final state is
`UdpHolePunching` — it never advances to `Failed`. -/
theorem hole_punch_timeout_state_counterexample :
    (natConnect 0 envHolePunchTimeout).outcome =
      .error "UDP hole punching failed: UDP hole punching timeout" ∧
    finalState (natConnect 0 envHolePunchTimeout) = ConnectionState.UdpHolePunching ∧
    (finalState (natConnect 0 envHolePunchTimeout)).isFailed = false :=
  ⟨rfl, rfl, rfl⟩

/-- C1 (amended): each failing await of C2-C5 surfaces its error wrapped with the
phase name given by the `.context` call at its call site (the two constructor
calls `StunClient::new` and `UdpHolePuncher::new` propagate their error with no
added context), and in every case — hole-punch timeout included — the state
variable remains at the current phase's in-progress value: it is never set to
`Failed`. -/
theorem connect_failure_states_amended (cfg : Nat) (env : ConnectEnv) :
    ((∀ e, env.signallingConnect = .error e →
        (natConnect cfg env).outcome =
          .error ("Failed to connect to signalling server: " ++ e) ∧
        finalState (natConnect cfg env) = ConnectionState.ConnectingSignalling) ∧
     (∀ e, env.signallingConnect = .ok () → env.register = .error e →
        (natConnect cfg env).outcome =
          .error ("Failed to register with signalling server: " ++ e) ∧
        finalState (natConnect cfg env) = ConnectionState.Registering) ∧
     (∀ e, env.signallingConnect = .ok () → env.register = .ok () →
        env.stunNew = .error e →
        (natConnect cfg env).outcome = .error e ∧
        finalState (natConnect cfg env) = ConnectionState.StunDiscovery) ∧
     (∀ e, env.signallingConnect = .ok () → env.register = .ok () →
        env.stunNew = .ok () → env.stunQuery = .error e →
        (natConnect cfg env).outcome = .error ("STUN query failed: " ++ e) ∧
        finalState (natConnect cfg env) = ConnectionState.StunDiscovery) ∧
     (∀ e, env.signallingConnect = .ok () → env.register = .ok () →
        env.stunNew = .ok () → env.stunQuery = .ok () → env.sendOffer = .error e →
        (natConnect cfg env).outcome = .error ("Failed to send offer: " ++ e) ∧
        finalState (natConnect cfg env) = ConnectionState.SendingOffer) ∧
     (∀ e, env.signallingConnect = .ok () → env.register = .ok () →
        env.stunNew = .ok () → env.stunQuery = .ok () → env.sendOffer = .ok () →
        env.holePuncherNew = .error e →
        (natConnect cfg env).outcome = .error e ∧
        finalState (natConnect cfg env) = ConnectionState.UdpHolePunching) ∧
     (∀ e, env.signallingConnect = .ok () → env.register = .ok () →
        env.stunNew = .ok () → env.stunQuery = .ok () → env.sendOffer = .ok () →
        env.holePuncherNew = .ok () → env.punchHole = .error e →
        (natConnect cfg env).outcome = .error ("UDP hole punching failed: " ++ e) ∧
        finalState (natConnect cfg env) = ConnectionState.UdpHolePunching) ∧
     (∀ e port, env.signallingConnect = .ok () → env.register = .ok () →
        env.stunNew = .ok () → env.stunQuery = .ok () → env.sendOffer = .ok () →
        env.holePuncherNew = .ok () → env.punchHole = .ok port →
        env.tcpOpen = .error e →
        (natConnect cfg env).outcome = .error ("TCP simultaneous open failed: " ++ e) ∧
        finalState (natConnect cfg env) = ConnectionState.TcpConnecting)) ∧
    (finalState (natConnect cfg env)).isFailed = false := by
  constructor
  · refine ⟨?_, ?_, ?_, ?_, ?_, ?_, ?_, ?_⟩
    · intro e h1
      simp [natConnect, finalState, wrapContext, h1]
    · intro e h1 h2
      simp [natConnect, finalState, wrapContext, h1, h2]
    · intro e h1 h2 h3
      simp [natConnect, finalState, wrapContext, h1, h2, h3]
    · intro e h1 h2 h3 h4
      simp [natConnect, finalState, wrapContext, h1, h2, h3, h4]
    · intro e h1 h2 h3 h4 h5
      simp [natConnect, finalState, wrapContext, h1, h2, h3, h4, h5]
    · intro e h1 h2 h3 h4 h5 h6
      simp [natConnect, finalState, wrapContext, h1, h2, h3, h4, h5, h6]
    · intro e h1 h2 h3 h4 h5 h6 h7
      simp [natConnect, finalState, wrapContext, h1, h2, h3, h4, h5, h6, h7]
    · intro e port h1 h2 h3 h4 h5 h6 h7 h8
      simp [natConnect, finalState, wrapContext, h1, h2, h3, h4, h5, h6, h7, h8]
  · have h := (natConnect_shape cfg env).1
    simp only [List.mem_cons, List.mem_singleton, List.not_mem_nil, or_false] at h
    rcases h with h | h | h | h | h | h | h <;>
      simp [finalState, h, ConnectionState.isFailed]

/-- Concrete instantiation of `connect_failure_states_amended` at a TCP
simultaneous-open timeout. -/
theorem connect_failure_states_amended_witness :
    (natConnect 0 envTcpOpenFail).outcome =
      .error ("TCP simultaneous open failed: " ++ "TCP simultaneous open timeout") ∧
    finalState (natConnect 0 envTcpOpenFail) = ConnectionState.TcpConnecting :=
  (connect_failure_states_amended 0 envTcpOpenFail).1.2.2.2.2.2.2.2
    "TCP simultaneous open timeout" 6000 rfl rfl rfl rfl rfl rfl rfl rfl

/-- C2 counterexample: with `tcp_port = 0` configured (as `main` always does), a
successful run embeds C4's OS-assigned port 54321 in every outgoing probe, yet
hands C5 the configured port 0 — a fresh wildcard bind — not 54321. -/
theorem tcp_port_rebind_counterexample :
    (natConnect 0 envAllOk).probeTcpPort = some 54321 ∧
    (natConnect 0 envAllOk).c5BindPort = some 0 ∧
    (natConnect 0 envAllOk).c5BindPort ≠ (natConnect 0 envAllOk).probeTcpPort := by
  refine ⟨rfl, rfl, by decide⟩

/-- C2 (amended): the ephemeral port C4 obtains is used only inside outgoing
probes; whenever C5 runs, the port it binds is exactly `config.tcp_port` (0 means
a fresh wildcard bind), with no dependence on C4's port. -/
theorem c5_bind_port_amended (cfg : Nat) (env : ConnectEnv) (p : Nat) :
    ((natConnect cfg env).c5BindPort = some p → p = cfg) ∧
    ((natConnect cfg env).probeTcpPort = some p → p = env.ephemeralTcpPort) := by
  obtain ⟨hs, hb, hp⟩ := natConnect_shape cfg env
  constructor
  · intro h
    rcases hb with hb | hb <;> rw [hb] at h <;> simp_all
  · intro h
    rcases hp with hp | hp <;> rw [hp] at h <;> simp_all

/-- Concrete instantiation of `c5_bind_port_amended`. -/
theorem c5_bind_port_amended_witness :
    (natConnect 0 envAllOk).c5BindPort = some 0 ∧ (0 : Nat) = 0 ∧
    (natConnect 0 envAllOk).probeTcpPort = some 54321 ∧ (54321 : Nat) = 54321 :=
  ⟨rfl, (c5_bind_port_amended 0 envAllOk 0).1 rfl, rfl,
   (c5_bind_port_amended 0 envAllOk 54321).2 rfl⟩

theorem xor_lt_two_pow {x y n : Nat} (hx : x < 2 ^ n) (hy : y < 2 ^ n) :
    x ^^^ y < 2 ^ n :=
  Nat.bitwise_lt hx hy

theorem zipWith_xor_cancel :
    ∀ (l k : List Nat), l.length = k.length →
      List.zipWith (fun a b => a ^^^ b) (List.zipWith (fun a b => a ^^^ b) l k) k = l := by
  intro l
  induction l with
  | nil => intro k h; simp
  | cons a l ih =>
      intro k h
      cases k with
      | nil => simp at h
      | cons b k =>
          simp only [List.zipWith_cons_cons, List.cons.injEq]
          exact ⟨Nat.xor_cancel_right b a, ih k (by simpa using h)⟩

theorem nth_append_right (l₁ l₂ : List Nat) (i : Nat) :
    nth (l₁ ++ l₂) (l₁.length + i) = nth l₂ i := by
  induction l₁ with
  | nil => simp only [List.nil_append, List.length_nil, Nat.zero_add]
  | cons a l ih =>
      simp only [List.cons_append, List.length_cons]
      have h : l.length + 1 + i = l.length + i + 1 := by omega
      rw [h]
      exact ih

theorem drop_append_right_nat (l₁ l₂ : List Nat) (k : Nat) :
    (l₁ ++ l₂).drop (l₁.length + k) = l₂.drop k := by
  induction l₁ with
  | nil => simp only [List.nil_append, List.length_nil, Nat.zero_add]
  | cons a l ih =>
      simp only [List.cons_append, List.length_cons]
      have h : l.length + 1 + k = l.length + k + 1 := by omega
      rw [h]
      exact ih

theorem mkBindingResponse_split (txid attrs : List Nat) :
    mkBindingResponse txid attrs =
      ([1, 1] ++ u16ToBeBytes attrs.length ++ [33, 18, 164, 66] ++ txid) ++ attrs := by
  simp [mkBindingResponse, List.append_assoc]

theorem mkBindingResponse_head_length (txid attrs : List Nat) (htx : txid.length = 12) :
    ([1, 1] ++ u16ToBeBytes attrs.length ++ [33, 18, 164, 66] ++ txid).length = 20 := by
  simp [u16ToBeBytes, htx]

theorem mkBindingResponse_length (txid attrs : List Nat) (htx : txid.length = 12) :
    (mkBindingResponse txid attrs).length = 20 + attrs.length := by
  simp [mkBindingResponse, u16ToBeBytes, htx]
  omega

theorem nth_mkBindingResponse (txid attrs : List Nat) (htx : txid.length = 12)
    (i : Nat) :
    nth (mkBindingResponse txid attrs) (20 + i) = nth attrs i := by
  rw [mkBindingResponse_split, ← mkBindingResponse_head_length txid attrs htx,
    nth_append_right]

theorem drop_mkBindingResponse (txid attrs : List Nat) (htx : txid.length = 12)
    (k : Nat) :
    (mkBindingResponse txid attrs).drop (20 + k) = attrs.drop k := by
  rw [mkBindingResponse_split, ← mkBindingResponse_head_length txid attrs htx,
    drop_append_right_nat]

theorem parse_binding_response_mk (txid attrs : List Nat) (htx : txid.length = 12)
    (hlen : attrs.length < 2 ^ 16) :
    parse_binding_response (mkBindingResponse txid attrs) txid =
      stun_attr_loop (mkBindingResponse txid attrs) txid (20 + attrs.length)
        (20 + attrs.length + 1) 20 := by
  have hL : (mkBindingResponse txid attrs).length = 20 + attrs.length :=
    mkBindingResponse_length txid attrs htx
  have h0 : nth (mkBindingResponse txid attrs) 0 = 1 := rfl
  have h1 : nth (mkBindingResponse txid attrs) 1 = 1 := rfl
  have h2 : nth (mkBindingResponse txid attrs) 2 = attrs.length / 256 % 256 := rfl
  have h3 : nth (mkBindingResponse txid attrs) 3 = attrs.length % 256 := rfl
  have h4 : nth (mkBindingResponse txid attrs) 4 = 33 := rfl
  have h5 : nth (mkBindingResponse txid attrs) 5 = 18 := rfl
  have h6 : nth (mkBindingResponse txid attrs) 6 = 164 := rfl
  have h7 : nth (mkBindingResponse txid attrs) 7 = 66 := rfl
  have hD : ((mkBindingResponse txid attrs).drop 8).take 12 = txid := by
    have hdrop8 : (mkBindingResponse txid attrs).drop 8 = txid ++ attrs := rfl
    rw [hdrop8, ← htx, List.take_left]
  have hE : u16FromBeBytes [attrs.length / 256 % 256, attrs.length % 256] =
      attrs.length := by
    simp only [u16FromBeBytes]
    omega
  simp only [parse_binding_response, h0, h1, h2, h3, h4, h5, h6, h7, hD, hE, hL]
  rw [if_neg (by omega)]
  rw [if_neg (by decide)]
  rw [if_neg (by decide)]
  rw [if_neg (by simp)]
  rw [if_neg (by omega)]

theorem stun_attr_loop_hit (data txid : List Nat) (stop fuel offset : Nat)
    (h1 : offset < stop) (h2 : ¬ (offset + 4 > data.length))
    (h3 : ¬ (offset + 4 +
      u16FromBeBytes [nth data (offset + 2), nth data (offset + 3)] > data.length)) :
    stun_attr_loop data txid stop (fuel + 1) offset =
      (if u16FromBeBytes [nth data offset, nth data (offset + 1)] = 0x0020 then
        parse_xor_mapped_address
          ((data.drop (offset + 4)).take
            (u16FromBeBytes [nth data (offset + 2), nth data (offset + 3)])) txid
      else if u16FromBeBytes [nth data offset, nth data (offset + 1)] = 0x0001 then
        parse_mapped_address
          ((data.drop (offset + 4)).take
            (u16FromBeBytes [nth data (offset + 2), nth data (offset + 3)]))
      else stun_attr_loop data txid stop fuel
        (offset + 4 +
          (u16FromBeBytes [nth data (offset + 2), nth data (offset + 3)] + 3) / 4 * 4)) := by
  simp only [stun_attr_loop]
  rw [if_pos h1, if_neg h2, if_neg h3]

set_option maxRecDepth 100000 in
theorem parse_xor_v4_value (a0 a1 a2 a3 port : Nat) (txid : List Nat)
    (ha0 : a0 < 256) (ha1 : a1 < 256) (ha2 : a2 < 256) (ha3 : a3 < 256)
    (hp : port < 2 ^ 16) :
    parse_xor_mapped_address (mkXorV4Value a0 a1 a2 a3 port) txid =
      .ok ⟨IpAddr.v4 [a0, a1, a2, a3], port⟩ := by
  have hB : u32FromBeBytes [a0, a1, a2, a3] < 2 ^ 32 := by
    simp only [u32FromBeBytes]
    omega
  have hA : u32FromBeBytes [a0, a1, a2, a3] ^^^ stunMagicCookie < 2 ^ 32 :=
    xor_lt_two_pow hB (by norm_num [stunMagicCookie])
  have hP : port ^^^ 0x2112 < 2 ^ 16 := xor_lt_two_pow hp (by norm_num)
  have step : parse_xor_mapped_address (mkXorV4Value a0 a1 a2 a3 port) txid =
      .ok ⟨IpAddr.v4 (u32ToBeBytes
          (u32FromBeBytes
            (u32ToBeBytes (u32FromBeBytes [a0, a1, a2, a3] ^^^ stunMagicCookie)) ^^^
            stunMagicCookie)),
        u16FromBeBytes (u16ToBeBytes (port ^^^ 0x2112)) ^^^
          (stunMagicCookie >>> 16 % 2 ^ 16)⟩ := rfl
  rw [step, u16_from_to, u32_from_to, Nat.mod_eq_of_lt hP, Nat.mod_eq_of_lt hA]
  have hc : stunMagicCookie >>> 16 % 2 ^ 16 = 8466 := by decide
  rw [hc, Nat.xor_cancel_right, Nat.xor_cancel_right]
  rw [u32_to_from a0 a1 a2 a3 ha0 ha1 ha2 ha3]

set_option maxRecDepth 100000 in
theorem parse_xor_v6_value (b txid : List Nat) (port : Nat)
    (hb : b.length = 16) (htx : txid.length = 12) (hp : port < 2 ^ 16) :
    parse_xor_mapped_address
        ([0, 2] ++ u16ToBeBytes (port ^^^ 0x2112) ++
          List.zipWith (fun x y => x ^^^ y) b (u32ToBeBytes stunMagicCookie ++ txid)) txid =
      .ok ⟨IpAddr.v6 b, port⟩ := by
  have hkey : (u32ToBeBytes stunMagicCookie ++ txid).length = 16 := by
    simp [u32ToBeBytes, htx]
  have hW : (List.zipWith (fun x y => x ^^^ y) b
      (u32ToBeBytes stunMagicCookie ++ txid)).length = 16 := by
    rw [List.length_zipWith, hb, hkey]
    simp
  have hlen : ([0, 2] ++ u16ToBeBytes (port ^^^ 0x2112) ++
      List.zipWith (fun x y => x ^^^ y) b
        (u32ToBeBytes stunMagicCookie ++ txid)).length = 20 := by
    simp [u16ToBeBytes, hW]
  have hP : port ^^^ 0x2112 < 2 ^ 16 := xor_lt_two_pow hp (by norm_num)
  have h1 : nth ([0, 2] ++ u16ToBeBytes (port ^^^ 0x2112) ++
      List.zipWith (fun x y => x ^^^ y) b (u32ToBeBytes stunMagicCookie ++ txid)) 1 = 2 := rfl
  have hport : u16FromBeBytes
      [nth ([0, 2] ++ u16ToBeBytes (port ^^^ 0x2112) ++
        List.zipWith (fun x y => x ^^^ y) b (u32ToBeBytes stunMagicCookie ++ txid)) 2,
       nth ([0, 2] ++ u16ToBeBytes (port ^^^ 0x2112) ++
        List.zipWith (fun x y => x ^^^ y) b (u32ToBeBytes stunMagicCookie ++ txid)) 3] =
      port ^^^ 0x2112 := by
    have h := u16_from_to (port ^^^ 0x2112)
    rw [Nat.mod_eq_of_lt hP] at h
    exact h
  have hdrop : ([0, 2] ++ u16ToBeBytes (port ^^^ 0x2112) ++
      List.zipWith (fun x y => x ^^^ y) b (u32ToBeBytes stunMagicCookie ++ txid)).drop 4 =
      List.zipWith (fun x y => x ^^^ y) b (u32ToBeBytes stunMagicCookie ++ txid) := rfl
  simp only [parse_xor_mapped_address, h1, hport, hdrop, hlen]
  rw [if_neg (by omega)]
  rw [if_neg (by decide)]
  rw [if_pos trivial]
  rw [if_neg (by omega)]
  rw [List.take_of_length_le (Nat.le_of_eq hW)]
  rw [zipWith_xor_cancel b (u32ToBeBytes stunMagicCookie ++ txid) (by rw [hb, hkey])]
  have hc : stunMagicCookie >>> 16 % 2 ^ 16 = 8466 := by decide
  rw [hc, Nat.xor_cancel_right]

set_option maxRecDepth 100000 in
theorem parse_mapped_v4_value (m0 m1 m2 m3 mp : Nat) (hmp : mp < 2 ^ 16) :
    parse_mapped_address (mkMappedV4Value m0 m1 m2 m3 mp) =
      .ok ⟨IpAddr.v4 [m0, m1, m2, m3], mp⟩ := by
  have step : parse_mapped_address (mkMappedV4Value m0 m1 m2 m3 mp) =
      .ok ⟨IpAddr.v4 [m0, m1, m2, m3], u16FromBeBytes (u16ToBeBytes mp)⟩ := rfl
  rw [step, u16_from_to, Nat.mod_eq_of_lt hmp]

set_option maxRecDepth 100000 in
theorem parse_response_first_tlv (txid attrs : List Nat) (htx : txid.length = 12)
    (hlen : attrs.length < 2 ^ 16) (h1 : 20 < 20 + attrs.length)
    (h2 : 24 ≤ 20 + attrs.length)
    (h3 : 24 + u16FromBeBytes [nth attrs 2, nth attrs 3] ≤ 20 + attrs.length) :
    parse_binding_response (mkBindingResponse txid attrs) txid =
      (if u16FromBeBytes [nth attrs 0, nth attrs 1] = 0x0020 then
        parse_xor_mapped_address
          ((attrs.drop 4).take (u16FromBeBytes [nth attrs 2, nth attrs 3])) txid
      else if u16FromBeBytes [nth attrs 0, nth attrs 1] = 0x0001 then
        parse_mapped_address
          ((attrs.drop 4).take (u16FromBeBytes [nth attrs 2, nth attrs 3]))
      else stun_attr_loop (mkBindingResponse txid attrs) txid (20 + attrs.length)
        (20 + attrs.length)
        (20 + 4 + (u16FromBeBytes [nth attrs 2, nth attrs 3] + 3) / 4 * 4)) := by
  have r20 : nth (mkBindingResponse txid attrs) 20 = nth attrs 0 := by
    simpa using nth_mkBindingResponse txid attrs htx 0
  have r21 : nth (mkBindingResponse txid attrs) (20 + 1) = nth attrs 1 :=
    nth_mkBindingResponse txid attrs htx 1
  have r22 : nth (mkBindingResponse txid attrs) (20 + 2) = nth attrs 2 :=
    nth_mkBindingResponse txid attrs htx 2
  have r23 : nth (mkBindingResponse txid attrs) (20 + 3) = nth attrs 3 :=
    nth_mkBindingResponse txid attrs htx 3
  have rdrop : (mkBindingResponse txid attrs).drop (20 + 4) = attrs.drop 4 :=
    drop_mkBindingResponse txid attrs htx 4
  have hmlen : (mkBindingResponse txid attrs).length = 20 + attrs.length :=
    mkBindingResponse_length txid attrs htx
  rw [parse_binding_response_mk txid attrs htx hlen]
  rw [stun_attr_loop_hit (mkBindingResponse txid attrs) txid (20 + attrs.length)
    (20 + attrs.length) 20 h1 (by rw [hmlen]; omega)
    (by rw [r22, r23, hmlen]; omega)]
  rw [r20, r21, r22, r23, rdrop]

theorem mkAttrTLV_read0 (t : Nat) (v : List Nat) :
    nth (mkAttrTLV t v) 0 = t / 256 % 256 := rfl

theorem mkAttrTLV_read1 (t : Nat) (v : List Nat) :
    nth (mkAttrTLV t v) 1 = t % 256 := rfl

theorem mkAttrTLV_read2 (t : Nat) (v : List Nat) :
    nth (mkAttrTLV t v) 2 = v.length / 256 % 256 := rfl

theorem mkAttrTLV_read3 (t : Nat) (v : List Nat) :
    nth (mkAttrTLV t v) 3 = v.length % 256 := rfl

theorem mkAttrTLV_type_eq (t : Nat) (v : List Nat) (ht : t < 65536) :
    u16FromBeBytes [nth (mkAttrTLV t v) 0, nth (mkAttrTLV t v) 1] = t := by
  rw [mkAttrTLV_read0, mkAttrTLV_read1]
  simp only [u16FromBeBytes]
  omega

theorem mkAttrTLV_len_eq (t : Nat) (v : List Nat) (hv : v.length < 65536) :
    u16FromBeBytes [nth (mkAttrTLV t v) 2, nth (mkAttrTLV t v) 3] = v.length := by
  rw [mkAttrTLV_read2, mkAttrTLV_read3]
  simp only [u16FromBeBytes]
  omega

theorem mkAttrTLV_append_read0 (t : Nat) (v rest : List Nat) :
    nth (mkAttrTLV t v ++ rest) 0 = t / 256 % 256 := rfl

theorem mkAttrTLV_append_read1 (t : Nat) (v rest : List Nat) :
    nth (mkAttrTLV t v ++ rest) 1 = t % 256 := rfl

theorem mkAttrTLV_append_read2 (t : Nat) (v rest : List Nat) :
    nth (mkAttrTLV t v ++ rest) 2 = v.length / 256 % 256 := rfl

theorem mkAttrTLV_append_read3 (t : Nat) (v rest : List Nat) :
    nth (mkAttrTLV t v ++ rest) 3 = v.length % 256 := rfl

theorem mkAttrTLV_append_type_eq (t : Nat) (v rest : List Nat) (ht : t < 65536) :
    u16FromBeBytes [nth (mkAttrTLV t v ++ rest) 0, nth (mkAttrTLV t v ++ rest) 1] = t := by
  rw [mkAttrTLV_append_read0, mkAttrTLV_append_read1]
  simp only [u16FromBeBytes]
  omega

theorem mkAttrTLV_append_len_eq (t : Nat) (v rest : List Nat) (hv : v.length < 65536) :
    u16FromBeBytes [nth (mkAttrTLV t v ++ rest) 2, nth (mkAttrTLV t v ++ rest) 3] =
      v.length := by
  rw [mkAttrTLV_append_read2, mkAttrTLV_append_read3]
  simp only [u16FromBeBytes]
  omega

theorem mkAttrTLV_drop4 (t : Nat) (v : List Nat) :
    (mkAttrTLV t v).drop 4 = v := rfl

theorem mkAttrTLV_append_drop4 (t : Nat) (v rest : List Nat) :
    (mkAttrTLV t v ++ rest).drop 4 = v ++ rest := rfl

set_option maxRecDepth 100000 in
theorem parse_response_xor_v4 (txid : List Nat) (a0 a1 a2 a3 port : Nat)
    (htx : txid.length = 12) (ha0 : a0 < 256) (ha1 : a1 < 256) (ha2 : a2 < 256)
    (ha3 : a3 < 256) (hp : port < 2 ^ 16) :
    parse_binding_response
        (mkBindingResponse txid (mkAttrTLV 0x0020 (mkXorV4Value a0 a1 a2 a3 port))) txid =
      .ok ⟨IpAddr.v4 [a0, a1, a2, a3], port⟩ := by
  have hv : (mkXorV4Value a0 a1 a2 a3 port).length = 8 := rfl
  have hl : (mkAttrTLV 0x0020 (mkXorV4Value a0 a1 a2 a3 port)).length = 12 := rfl
  have hlenread : u16FromBeBytes
      [nth (mkAttrTLV 0x0020 (mkXorV4Value a0 a1 a2 a3 port)) 2,
       nth (mkAttrTLV 0x0020 (mkXorV4Value a0 a1 a2 a3 port)) 3] =
      (mkXorV4Value a0 a1 a2 a3 port).length :=
    mkAttrTLV_len_eq 0x0020 (mkXorV4Value a0 a1 a2 a3 port) (by omega)
  rw [parse_response_first_tlv txid (mkAttrTLV 0x0020 (mkXorV4Value a0 a1 a2 a3 port)) htx
    (by omega) (by omega) (by omega) (by rw [hlenread]; omega)]
  rw [mkAttrTLV_type_eq 0x0020 (mkXorV4Value a0 a1 a2 a3 port) (by omega)]
  rw [if_pos rfl]
  rw [hlenread, mkAttrTLV_drop4, List.take_length]
  exact parse_xor_v4_value a0 a1 a2 a3 port txid ha0 ha1 ha2 ha3 hp

/-- C5: for every well-formed STUN binding response carrying an IPv4
XOR-MAPPED-ADDRESS attribute whose wire port is the original port XORed with the
high 16 bits of the magic cookie 0x2112A442 and whose wire address is the original
IPv4 address XORed with the cookie, the decoded `StunResponse` equals the original
address and port bit-for-bit; an IPv6 XOR-MAPPED-ADDRESS value is decoded by
XORing with the 16 bytes of the magic cookie followed by the transaction id,
recovering the original address. -/
theorem xor_mapped_address_roundtrip (a0 a1 a2 a3 port : Nat) (txid b : List Nat)
    (ha0 : a0 < 256) (ha1 : a1 < 256) (ha2 : a2 < 256) (ha3 : a3 < 256)
    (hp : port < 2 ^ 16) (htx : txid.length = 12) (hb : b.length = 16) :
    parse_binding_response
        (mkBindingResponse txid (mkAttrTLV 0x0020 (mkXorV4Value a0 a1 a2 a3 port))) txid =
      .ok ⟨IpAddr.v4 [a0, a1, a2, a3], port⟩ ∧
    parse_xor_mapped_address
        ([0, 2] ++ u16ToBeBytes (port ^^^ 0x2112) ++
          List.zipWith (fun x y => x ^^^ y) b (u32ToBeBytes stunMagicCookie ++ txid)) txid =
      .ok ⟨IpAddr.v6 b, port⟩ :=
  ⟨parse_response_xor_v4 txid a0 a1 a2 a3 port htx ha0 ha1 ha2 ha3 hp,
   parse_xor_v6_value b txid port hb htx hp⟩

/-- Concrete instantiation of `xor_mapped_address_roundtrip` at address
192.168.1.2, port 3478, a fixed transaction id, and an all-5s IPv6 address. -/
theorem xor_mapped_address_roundtrip_witness :
    parse_binding_response
        (mkBindingResponse [0, 1, 2, 3, 4, 5, 6, 7, 8, 9, 10, 11]
          (mkAttrTLV 0x0020 (mkXorV4Value 192 168 1 2 3478)))
        [0, 1, 2, 3, 4, 5, 6, 7, 8, 9, 10, 11] =
      .ok ⟨IpAddr.v4 [192, 168, 1, 2], 3478⟩ ∧
    parse_xor_mapped_address
        ([0, 2] ++ u16ToBeBytes (3478 ^^^ 0x2112) ++
          List.zipWith (fun x y => x ^^^ y) (List.replicate 16 5)
            (u32ToBeBytes stunMagicCookie ++ [0, 1, 2, 3, 4, 5, 6, 7, 8, 9, 10, 11]))
        [0, 1, 2, 3, 4, 5, 6, 7, 8, 9, 10, 11] =
      .ok ⟨IpAddr.v6 (List.replicate 16 5), 3478⟩ :=
  xor_mapped_address_roundtrip 192 168 1 2 3478 [0, 1, 2, 3, 4, 5, 6, 7, 8, 9, 10, 11]
    (List.replicate 16 5) (by decide) (by decide) (by decide) (by decide) (by decide)
    (by decide) (by decide)

set_option maxRecDepth 1000000 in
/-- C7 counterexample: a binding response carrying MAPPED-ADDRESS (10.0.0.1:8000)
first and XOR-MAPPED-ADDRESS (decoding to 9.9.9.9:1234) second is parsed to the
MAPPED-ADDRESS value, not the XOR-MAPPED-ADDRESS one, so XOR-MAPPED-ADDRESS is
not preferred when MAPPED-ADDRESS precedes it. -/
theorem stun_attr_order_counterexample :
    parse_binding_response
        (mkBindingResponse [0, 0, 0, 0, 0, 0, 0, 0, 0, 0, 0, 0]
          (mkAttrTLV 0x0001 (mkMappedV4Value 10 0 0 1 8000) ++
           mkAttrTLV 0x0020 (mkXorV4Value 9 9 9 9 1234)))
        [0, 0, 0, 0, 0, 0, 0, 0, 0, 0, 0, 0] =
      .ok ⟨IpAddr.v4 [10, 0, 0, 1], 8000⟩ ∧
    parse_xor_mapped_address (mkXorV4Value 9 9 9 9 1234)
        [0, 0, 0, 0, 0, 0, 0, 0, 0, 0, 0, 0] =
      .ok ⟨IpAddr.v4 [9, 9, 9, 9], 1234⟩ ∧
    (⟨IpAddr.v4 [10, 0, 0, 1], 8000⟩ : StunResponse) ≠
      ⟨IpAddr.v4 [9, 9, 9, 9], 1234⟩ := by
  refine ⟨rfl, rfl, by decide⟩

set_option maxRecDepth 100000 in
/-- C7 (amended): `parse_binding_response` returns the address decoded from the
first recognised attribute in wire order: an XOR-MAPPED-ADDRESS that appears
before MAPPED-ADDRESS is used, but a MAPPED-ADDRESS that appears first wins even
though an XOR-MAPPED-ADDRESS is present later; MAPPED-ADDRESS alone still works
as a fallback. -/
theorem stun_first_recognised_attribute_amended (txid : List Nat)
    (htx : txid.length = 12) (m0 m1 m2 m3 mp x0 x1 x2 x3 xp : Nat)
    (hx0 : x0 < 256) (hx1 : x1 < 256) (hx2 : x2 < 256) (hx3 : x3 < 256)
    (hmp : mp < 2 ^ 16) (hxp : xp < 2 ^ 16) :
    parse_binding_response
        (mkBindingResponse txid
          (mkAttrTLV 0x0001 (mkMappedV4Value m0 m1 m2 m3 mp) ++
           mkAttrTLV 0x0020 (mkXorV4Value x0 x1 x2 x3 xp))) txid =
      .ok ⟨IpAddr.v4 [m0, m1, m2, m3], mp⟩ ∧
    parse_binding_response
        (mkBindingResponse txid
          (mkAttrTLV 0x0020 (mkXorV4Value x0 x1 x2 x3 xp) ++
           mkAttrTLV 0x0001 (mkMappedV4Value m0 m1 m2 m3 mp))) txid =
      .ok ⟨IpAddr.v4 [x0, x1, x2, x3], xp⟩ ∧
    parse_binding_response
        (mkBindingResponse txid (mkAttrTLV 0x0001 (mkMappedV4Value m0 m1 m2 m3 mp))) txid =
      .ok ⟨IpAddr.v4 [m0, m1, m2, m3], mp⟩ := by
  refine ⟨?_, ?_, ?_⟩
  · have hv : (mkMappedV4Value m0 m1 m2 m3 mp).length = 8 := rfl
    have hl : (mkAttrTLV 0x0001 (mkMappedV4Value m0 m1 m2 m3 mp) ++
        mkAttrTLV 0x0020 (mkXorV4Value x0 x1 x2 x3 xp)).length = 24 := rfl
    have hlenread : u16FromBeBytes
        [nth (mkAttrTLV 0x0001 (mkMappedV4Value m0 m1 m2 m3 mp) ++
          mkAttrTLV 0x0020 (mkXorV4Value x0 x1 x2 x3 xp)) 2,
         nth (mkAttrTLV 0x0001 (mkMappedV4Value m0 m1 m2 m3 mp) ++
          mkAttrTLV 0x0020 (mkXorV4Value x0 x1 x2 x3 xp)) 3] =
        (mkMappedV4Value m0 m1 m2 m3 mp).length :=
      mkAttrTLV_append_len_eq 0x0001 (mkMappedV4Value m0 m1 m2 m3 mp)
        (mkAttrTLV 0x0020 (mkXorV4Value x0 x1 x2 x3 xp)) (by omega)
    rw [parse_response_first_tlv txid
      (mkAttrTLV 0x0001 (mkMappedV4Value m0 m1 m2 m3 mp) ++
        mkAttrTLV 0x0020 (mkXorV4Value x0 x1 x2 x3 xp)) htx
      (by omega) (by omega) (by omega) (by rw [hlenread]; omega)]
    rw [mkAttrTLV_append_type_eq 0x0001 (mkMappedV4Value m0 m1 m2 m3 mp)
      (mkAttrTLV 0x0020 (mkXorV4Value x0 x1 x2 x3 xp)) (by omega)]
    rw [if_neg (by decide)]
    rw [if_pos rfl]
    rw [hlenread, mkAttrTLV_append_drop4, List.take_left]
    exact parse_mapped_v4_value m0 m1 m2 m3 mp hmp
  · have hv : (mkXorV4Value x0 x1 x2 x3 xp).length = 8 := rfl
    have hl : (mkAttrTLV 0x0020 (mkXorV4Value x0 x1 x2 x3 xp) ++
        mkAttrTLV 0x0001 (mkMappedV4Value m0 m1 m2 m3 mp)).length = 24 := rfl
    have hlenread : u16FromBeBytes
        [nth (mkAttrTLV 0x0020 (mkXorV4Value x0 x1 x2 x3 xp) ++
          mkAttrTLV 0x0001 (mkMappedV4Value m0 m1 m2 m3 mp)) 2,
         nth (mkAttrTLV 0x0020 (mkXorV4Value x0 x1 x2 x3 xp) ++
          mkAttrTLV 0x0001 (mkMappedV4Value m0 m1 m2 m3 mp)) 3] =
        (mkXorV4Value x0 x1 x2 x3 xp).length :=
      mkAttrTLV_append_len_eq 0x0020 (mkXorV4Value x0 x1 x2 x3 xp)
        (mkAttrTLV 0x0001 (mkMappedV4Value m0 m1 m2 m3 mp)) (by omega)
    rw [parse_response_first_tlv txid
      (mkAttrTLV 0x0020 (mkXorV4Value x0 x1 x2 x3 xp) ++
        mkAttrTLV 0x0001 (mkMappedV4Value m0 m1 m2 m3 mp)) htx
      (by omega) (by omega) (by omega) (by rw [hlenread]; omega)]
    rw [mkAttrTLV_append_type_eq 0x0020 (mkXorV4Value x0 x1 x2 x3 xp)
      (mkAttrTLV 0x0001 (mkMappedV4Value m0 m1 m2 m3 mp)) (by omega)]
    rw [if_pos rfl]
    rw [hlenread, mkAttrTLV_append_drop4, List.take_left]
    exact parse_xor_v4_value x0 x1 x2 x3 xp txid hx0 hx1 hx2 hx3 hxp
  · have hv : (mkMappedV4Value m0 m1 m2 m3 mp).length = 8 := rfl
    have hl : (mkAttrTLV 0x0001 (mkMappedV4Value m0 m1 m2 m3 mp)).length = 12 := rfl
    have hlenread : u16FromBeBytes
        [nth (mkAttrTLV 0x0001 (mkMappedV4Value m0 m1 m2 m3 mp)) 2,
         nth (mkAttrTLV 0x0001 (mkMappedV4Value m0 m1 m2 m3 mp)) 3] =
        (mkMappedV4Value m0 m1 m2 m3 mp).length :=
      mkAttrTLV_len_eq 0x0001 (mkMappedV4Value m0 m1 m2 m3 mp) (by omega)
    rw [parse_response_first_tlv txid (mkAttrTLV 0x0001 (mkMappedV4Value m0 m1 m2 m3 mp))
      htx (by omega) (by omega) (by omega) (by rw [hlenread]; omega)]
    rw [mkAttrTLV_type_eq 0x0001 (mkMappedV4Value m0 m1 m2 m3 mp) (by omega)]
    rw [if_neg (by decide)]
    rw [if_pos rfl]
    rw [hlenread, mkAttrTLV_drop4, List.take_length]
    exact parse_mapped_v4_value m0 m1 m2 m3 mp hmp

/-- Concrete instantiation of `stun_first_recognised_attribute_amended`. -/
theorem stun_first_recognised_attribute_amended_witness :
    parse_binding_response
        (mkBindingResponse [0, 1, 2, 3, 4, 5, 6, 7, 8, 9, 10, 11]
          (mkAttrTLV 0x0001 (mkMappedV4Value 10 0 0 1 8000) ++
           mkAttrTLV 0x0020 (mkXorV4Value 9 9 9 9 1234)))
        [0, 1, 2, 3, 4, 5, 6, 7, 8, 9, 10, 11] =
      .ok ⟨IpAddr.v4 [10, 0, 0, 1], 8000⟩ ∧
    parse_binding_response
        (mkBindingResponse [0, 1, 2, 3, 4, 5, 6, 7, 8, 9, 10, 11]
          (mkAttrTLV 0x0020 (mkXorV4Value 9 9 9 9 1234) ++
           mkAttrTLV 0x0001 (mkMappedV4Value 10 0 0 1 8000)))
        [0, 1, 2, 3, 4, 5, 6, 7, 8, 9, 10, 11] =
      .ok ⟨IpAddr.v4 [9, 9, 9, 9], 1234⟩ ∧
    parse_binding_response
        (mkBindingResponse [0, 1, 2, 3, 4, 5, 6, 7, 8, 9, 10, 11]
          (mkAttrTLV 0x0001 (mkMappedV4Value 10 0 0 1 8000)))
        [0, 1, 2, 3, 4, 5, 6, 7, 8, 9, 10, 11] =
      .ok ⟨IpAddr.v4 [10, 0, 0, 1], 8000⟩ :=
  stun_first_recognised_attribute_amended [0, 1, 2, 3, 4, 5, 6, 7, 8, 9, 10, 11]
    (by decide) 10 0 0 1 8000 9 9 9 9 1234 (by decide) (by decide) (by decide)
    (by decide) (by decide) (by decide)

end Pineapple
